import Mathlib

/-!
Verification of the Character.AI → OpenAI endpoint proxy
(`src/api/v1/chat/completions.js` and its near-duplicate variants
`src/unnamed/part_000`, `src/unnamed/part_001`).

The repository is three near-duplicate variants of one Next.js API handler;
`src/unnamed/part_000` is the most complete ("hardened") variant, containing
every check present in the other two plus CSRF resolution, error-body
truncation and input validation.  The handler embedded below follows
`src/unnamed/part_000` line by line; where the variants differ, comments
note it.

Modelling conventions:
- JS strings delivered by `TextDecoder` are modelled as `List Char`; the
  streaming buffer logic (`buffer += chunk; lines = buffer.split('\n');
  buffer = lines.pop() || ''`) is embedded over char lists.
- `JSON.parse` is embedded as a recursive-descent parser `parseJson` over
  the JSON grammar (objects, arrays, strings with escapes, literals,
  numbers); numbers are kept as their lexeme since no claim depends on
  numeric values.
- Time-dependent response fields (`id: Date.now()`, `created`) are omitted
  from the modelled response envelope; no claim mentions them.
- The Redis store is a read-only snapshot `String → Option String` plus a
  write trace; within one request no key is read after being written, so a
  static snapshot is faithful.
- Backend `fetch` results are an oracle (`Backend`) fixing what each of the
  four possible calls would return.
-/

namespace CaiProxy

/-! ## Streaming buffer core

JS `buffer.split('\n')` over char lists.  `splitNl` always returns a
non-empty list; the last element is the trailing (possibly empty) piece
after the last newline, exactly like JS `split`. -/

def splitNl : List Char → List (List Char)
  | [] => [[]]
  | c :: rest =>
    if c = '\n' then [] :: splitNl rest
    else
      match splitNl rest with
      | [] => [[c]]
      | l :: ls => (c :: l) :: ls

theorem splitNl_ne_nil (s : List Char) : splitNl s ≠ [] := by
  induction s with
  | nil => simp [splitNl]
  | cons c rest ih =>
    simp only [splitNl]
    split
    · simp
    · cases h : splitNl rest <;> simp

/-- How `splitNl` of a concatenation assembles from the two halves: the last
piece of the first half glues onto the first piece of the second half. -/
def glueSplit : List (List Char) → List (List Char) → List (List Char)
  | [], ys => ys
  | [x], [] => [x]
  | [x], y :: yt => (x ++ y) :: yt
  | x :: xs, ys => x :: glueSplit xs ys

theorem glueSplit_cons_cons (x a : List Char) (xs ys : List (List Char)) :
    glueSplit (x :: a :: xs) ys = x :: glueSplit (a :: xs) ys := by
  rfl

theorem exists_cons_of_splitNl (s : List Char) :
    ∃ l ls, splitNl s = l :: ls := by
  cases h : splitNl s with
  | nil => exact absurd h (splitNl_ne_nil s)
  | cons l ls => exact ⟨l, ls, rfl⟩

theorem splitNl_cons (c : Char) (s : List Char) :
    splitNl (c :: s) =
      if c = '\n' then [] :: splitNl s
      else
        match splitNl s with
        | [] => [[c]]
        | l :: ls => (c :: l) :: ls := by
  rfl

theorem splitNl_append (a b : List Char) :
    splitNl (a ++ b) = glueSplit (splitNl a) (splitNl b) := by
  induction a with
  | nil =>
    obtain ⟨y, yt, hb⟩ := exists_cons_of_splitNl b
    simp [splitNl, glueSplit, hb]
  | cons c rest ih =>
    rw [List.cons_append, splitNl_cons, splitNl_cons, ih]
    obtain ⟨l, ls, hr⟩ := exists_cons_of_splitNl rest
    rw [hr]
    by_cases hc : c = '\n'
    · rw [if_pos hc, if_pos hc, glueSplit_cons_cons]
    · rw [if_neg hc, if_neg hc]
      cases ls with
      | nil =>
        obtain ⟨y, yt, hb⟩ := exists_cons_of_splitNl b
        rw [hb]
        rfl
      | cons l2 ls2 => rfl

theorem splitNl_no_newline (s : List Char) (h : '\n' ∉ s) : splitNl s = [s] := by
  induction s with
  | nil => rfl
  | cons c rest ih =>
    simp only [List.mem_cons, not_or] at h
    have hc : ¬c = '\n' := fun hc => h.1 (hc ▸ rfl)
    rw [splitNl, if_neg hc, ih h.2]

/-- The trailing carry-over piece (last element of the split) never contains
a newline. -/
theorem splitNl_getLastD_no_newline (s : List Char) :
    '\n' ∉ (splitNl s).getLastD [] := by
  induction s with
  | nil => simp [splitNl]
  | cons c rest ih =>
    rw [splitNl_cons]
    obtain ⟨l, ls, hr⟩ := exists_cons_of_splitNl rest
    rw [hr] at ih ⊢
    by_cases hc : c = '\n'
    · rw [if_pos hc]
      simpa [List.getLastD_cons] using ih
    · rw [if_neg hc]
      cases ls with
      | nil =>
        intro hmem
        simp only [List.getLastD_cons, List.getLastD_nil] at hmem ih
        rcases List.mem_cons.mp hmem with h1 | h2
        · exact hc h1.symm
        · exact ih h2
      | cons l2 ls2 => simpa [List.getLastD_cons] using ih

/-- Gluing a non-empty first argument: `glueSplit` peels off all but its last
piece unchanged. -/
theorem glueSplit_eq_dropLast_append (L M : List (List Char)) (hL : L ≠ []) :
    glueSplit L M = L.dropLast ++ glueSplit [L.getLastD []] M := by
  induction L with
  | nil => exact absurd rfl hL
  | cons x xs ih =>
    cases xs with
    | nil => simp [List.getLastD_cons, List.getLastD_nil]
    | cons a t =>
      rw [glueSplit_cons_cons, ih (by simp)]
      simp [List.getLastD_cons]

/-- The read loop of the streaming translator
(`src/unnamed/part_000` lines 195-219):
`buffer += new TextDecoder().decode(value); const lines = buffer.split('\n');
buffer = lines.pop() || '';` and the complete lines are processed in order.
Returns the final carry-over buffer and all complete lines processed. -/
def runReads (buf : List Char) : List (List Char) → List Char × List (List Char)
  | [] => (buf, [])
  | chunk :: rest =>
    ((runReads ((splitNl (buf ++ chunk)).getLastD []) rest).1,
     (splitNl (buf ++ chunk)).dropLast ++
       (runReads ((splitNl (buf ++ chunk)).getLastD []) rest).2)

theorem getLastD_append_of_right_ne_nil (A B : List (List Char))
    (hB : B ≠ []) (d : List Char) : (A ++ B).getLastD d = B.getLastD d := by
  simp [List.getLastD_eq_getLast?, List.getLast?_append_of_ne_nil A hB,
    Option.or_of_isSome (List.getLast?_isSome.mpr hB)]

/-- Invariant of the read loop: starting from a newline-free carry-over
buffer, the processed complete lines are exactly all pieces but the last of
the newline-split of the total bytes seen, and the final buffer is that
last piece. -/
theorem runReads_eq (reads : List (List Char)) (buf : List Char)
    (h : '\n' ∉ buf) :
    runReads buf reads =
      ((splitNl (buf ++ reads.flatten)).getLastD [],
       (splitNl (buf ++ reads.flatten)).dropLast) := by
  induction reads generalizing buf with
  | nil =>
    simp [runReads, splitNl_no_newline buf h, List.getLastD_cons,
      List.getLastD_nil]
  | cons chunk rest ih =>
    rw [runReads]
    have hlast : '\n' ∉ (splitNl (buf ++ chunk)).getLastD [] :=
      splitNl_getLastD_no_newline (buf ++ chunk)
    rw [ih _ hlast]
    have hkey : splitNl (buf ++ (chunk :: rest).flatten) =
        (splitNl (buf ++ chunk)).dropLast ++
          splitNl ((splitNl (buf ++ chunk)).getLastD [] ++ rest.flatten) := by
      have h1 : buf ++ (chunk :: rest).flatten = (buf ++ chunk) ++ rest.flatten := by
        simp [List.flatten_cons, List.append_assoc]
      rw [h1, splitNl_append (buf ++ chunk) rest.flatten,
        glueSplit_eq_dropLast_append _ _ (splitNl_ne_nil _),
        ← splitNl_no_newline ((splitNl (buf ++ chunk)).getLastD []) hlast,
        ← splitNl_append]
    have hne : splitNl ((splitNl (buf ++ chunk)).getLastD [] ++ rest.flatten) ≠ [] :=
      splitNl_ne_nil _
    rw [Prod.mk.injEq]
    constructor
    · rw [hkey, getLastD_append_of_right_ne_nil _ _ hne]
    · rw [hkey, List.dropLast_append_of_ne_nil _ hne]

/-! ## `JSON.parse` embedding

A recursive-descent parser for the JSON grammar, fuelled for termination.
JS object property access with duplicate keys keeps the last occurrence;
`jsLookup` mirrors that.  Numbers are kept as their lexeme: no claim
depends on numeric values. -/

inductive Json where
  | null
  | bool (b : Bool)
  | num (lexeme : String)
  | str (s : String)
  | arr (elems : List Json)
  | obj (fields : List (String × Json))

def openBrace : Char := Char.ofNat 123

def closeBrace : Char := Char.ofNat 125

def isWs (c : Char) : Bool :=
  c = ' ' || c = '\t' || c = '\n' || c = '\r'

def skipWs : List Char → List Char
  | [] => []
  | c :: rest => if isWs c then skipWs rest else c :: rest

def hexVal (c : Char) : Option Nat :=
  if '0' ≤ c ∧ c ≤ '9' then some (c.toNat - '0'.toNat)
  else if 'a' ≤ c ∧ c ≤ 'f' then some (c.toNat - 'a'.toNat + 10)
  else if 'A' ≤ c ∧ c ≤ 'F' then some (c.toNat - 'A'.toNat + 10)
  else none

def escChar (c : Char) : Option Char :=
  if c = '"' then some '"'
  else if c = '\\' then some '\\'
  else if c = '/' then some '/'
  else if c = 'b' then some (Char.ofNat 8)
  else if c = 'f' then some (Char.ofNat 12)
  else if c = 'n' then some '\n'
  else if c = 'r' then some '\r'
  else if c = 't' then some '\t'
  else none

/-- String body after the opening quote; raw control characters are
rejected, as `JSON.parse` does. -/
def parseStrBody : Nat → List Char → Option (List Char × List Char)
  | 0, _ => none
  | _, [] => none
  | fuel + 1, c :: rest =>
    if c = '"' then some ([], rest)
    else if c = '\\' then
      match rest with
      | [] => none
      | e :: rest2 =>
        if e = 'u' then
          match rest2 with
          | h1 :: h2 :: h3 :: h4 :: rest6 =>
            match hexVal h1, hexVal h2, hexVal h3, hexVal h4 with
            | some a, some b, some c2, some d =>
              match parseStrBody fuel rest6 with
              | some (s, r) => some (Char.ofNat (((a * 16 + b) * 16 + c2) * 16 + d) :: s, r)
              | none => none
            | _, _, _, _ => none
          | _ => none
        else
          match escChar e with
          | some ch =>
            match parseStrBody fuel rest2 with
            | some (s, r) => some (ch :: s, r)
            | none => none
          | none => none
    else if c.toNat < 32 then none
    else
      match parseStrBody fuel rest with
      | some (s, r) => some (c :: s, r)
      | none => none

/-- JSON number grammar: `-? (0 | [1-9][0-9]*) frac? exp?`. -/
def parseNumber (cs : List Char) : Option (List Char × List Char) :=
  let (sign, cs1) :=
    match cs with
    | '-' :: t => (['-'], t)
    | _ => (([] : List Char), cs)
  let (intPart, cs2) := cs1.span Char.isDigit
  match intPart with
  | [] => none
  | d0 :: drest =>
    if d0 = '0' ∧ drest ≠ [] then none
    else
      let (fracPart, cs3) :=
        match cs2 with
        | '.' :: t =>
          let (ds, r) := t.span Char.isDigit
          if ds = [] then ([], cs2) else ('.' :: ds, r)
        | _ => (([] : List Char), cs2)
      let fracOk : Bool :=
        match cs2 with
        | '.' :: t => ¬(t.span Char.isDigit).1.isEmpty
        | _ => true
      if ¬fracOk then none
      else
        let (expPart, cs4) :=
          match cs3 with
          | e :: t =>
            if e = 'e' ∨ e = 'E' then
              let (sgn, t2) :=
                match t with
                | s :: t2 => if s = '+' ∨ s = '-' then ([s], t2) else ([], t)
                | [] => (([] : List Char), t)
              let (ds, r) := t2.span Char.isDigit
              if ds = [] then (([] : List Char), cs3) else (e :: (sgn ++ ds), r)
            else (([] : List Char), cs3)
          | [] => (([] : List Char), cs3)
        let expOk : Bool :=
          match cs3 with
          | e :: t =>
            if e = 'e' ∨ e = 'E' then
              let t2 :=
                match t with
                | s :: t2 => if s = '+' ∨ s = '-' then t2 else t
                | [] => t
              ¬(t2.span Char.isDigit).1.isEmpty
            else true
          | [] => true
        if ¬expOk then none
        else some (sign ++ intPart ++ fracPart ++ expPart, cs4)

mutual

def parseVal : Nat → List Char → Option (Json × List Char)
  | 0, _ => none
  | fuel + 1, cs =>
    match skipWs cs with
    | [] => none
    | c :: rest =>
      if c = '"' then
        match parseStrBody (fuel + 1) rest with
        | some (s, r) => some (Json.str (String.mk s), r)
        | none => none
      else if c = openBrace then
        match skipWs rest with
        | [] => none
        | c2 :: r2 =>
          if c2 = closeBrace then some (Json.obj [], r2)
          else
            match parseMembers fuel (c2 :: r2) with
            | some (ms, r3) => some (Json.obj ms, r3)
            | none => none
      else if c = '[' then
        match skipWs rest with
        | [] => none
        | c2 :: r2 =>
          if c2 = ']' then some (Json.arr [], r2)
          else
            match parseElems fuel (c2 :: r2) with
            | some (vs, r3) => some (Json.arr vs, r3)
            | none => none
      else if c = 't' then
        match rest with
        | 'r' :: 'u' :: 'e' :: r => some (Json.bool true, r)
        | _ => none
      else if c = 'f' then
        match rest with
        | 'a' :: 'l' :: 's' :: 'e' :: r => some (Json.bool false, r)
        | _ => none
      else if c = 'n' then
        match rest with
        | 'u' :: 'l' :: 'l' :: r => some (Json.null, r)
        | _ => none
      else
        match parseNumber (c :: rest) with
        | some (lex, r) => some (Json.num (String.mk lex), r)
        | none => none

def parseMembers : Nat → List Char → Option (List (String × Json) × List Char)
  | 0, _ => none
  | fuel + 1, cs =>
    match skipWs cs with
    | [] => none
    | c :: rest =>
      if c = '"' then
        match parseStrBody fuel rest with
        | some (k, r1) =>
          match skipWs r1 with
          | ':' :: r2 =>
            match parseVal fuel r2 with
            | some (v, r3) =>
              match skipWs r3 with
              | ',' :: r4 =>
                match parseMembers fuel r4 with
                | some (ms, r5) => some ((String.mk k, v) :: ms, r5)
                | none => none
              | c4 :: r4 =>
                if c4 = closeBrace then some ([(String.mk k, v)], r4) else none
              | [] => none
            | none => none
          | _ => none
        | none => none
      else none

def parseElems : Nat → List Char → Option (List Json × List Char)
  | 0, _ => none
  | fuel + 1, cs =>
    match parseVal fuel cs with
    | some (v, r1) =>
      match skipWs r1 with
      | ',' :: r2 =>
        match parseElems fuel r2 with
        | some (vs, r3) => some (v :: vs, r3)
        | none => none
      | ']' :: r2 => some (v :: [], r2)
      | _ => none
    | none => none

end

/-- Whole-input `JSON.parse(line)`: `none` models a thrown
`SyntaxError`. -/
def parseJson (line : List Char) : Option Json :=
  match parseVal (line.length + 1) line with
  | some (v, rest) => if skipWs rest = [] then some v else none
  | none => none

/-! ## Candidate-text extraction (`chunk.candidates?.[0]?.text || dflt`) -/

/-- JS property read on an object literal: with duplicate keys the last
occurrence wins. -/
def jsLookup (fields : List (String × Json)) (k : String) : Option Json :=
  ((fields.filter (fun p => p.1 = k)).getLast?).map (fun p => p.2)

def getField : Json → String → Option Json
  | Json.obj fs, k => jsLookup fs k
  | _, _ => none

def getIndex0 : Json → Option Json
  | Json.arr (x :: _) => some x
  | _ => none

/-- JS `chunk.candidates?.[0]?.text` (fields are string-valued in every
backend reply; non-array `candidates` / non-object elements yield
`none`). -/
def candText (j : Json) : Option Json :=
  ((getField j "candidates").bind getIndex0).bind (fun c => getField c "text")

/-- JS `x || dflt` for an optional string-valued field: absent, non-string
or empty-string values fall back to the default. -/
def jsOr (v : Option Json) (dflt : String) : String :=
  match v with
  | some (Json.str s) => if s = "" then dflt else s
  | _ => dflt

/-! ## Streaming translator: SSE frame emission

JS `id: Date.now()` and `created` are clock values; an emitted frame is
modelled by its delta content (the only claim-relevant field — `index` is
the literal 0 and `finish_reason` the literal null in every frame built by
the source). -/

/-- JS `String.prototype.trim` (ASCII whitespace; the backend stream
is ASCII-framed). -/
def jsTrim (s : List Char) : List Char :=
  ((s.dropWhile isWs).reverse.dropWhile isWs).reverse

inductive SSEvent where
  | delta (content : String)
  | done
deriving DecidableEq

/-- Per-line processing of the stream loop body
(`src/unnamed/part_000` lines 203-216): blank lines are skipped
(`if (line.trim())`), a parse failure is swallowed (`catch` → no write),
and a successful parse writes one frame whose delta content is
`chunk.candidates?.[0]?.text || ''`. -/
def frameFor (line : List Char) : Option String :=
  if jsTrim line = [] then none
  else
    match parseJson line with
    | some chunk => some (jsOr (candText chunk) "")
    | none => none

/-- The complete lines processed across the whole read loop. -/
def completeLines (reads : List (List Char)) : List (List Char) :=
  (runReads [] reads).2

/-- Everything the streaming translator writes to the caller, in order:
one `delta` per emitted frame, then the `data: [DONE]` sentinel
(`res.write('data: [DONE]\n\n'); res.end()`). -/
def streamEvents (reads : List (List Char)) : List SSEvent :=
  ((completeLines reads).filterMap frameFor).map SSEvent.delta ++ [SSEvent.done]

theorem completeLines_eq (reads : List (List Char)) :
    completeLines reads = (splitNl reads.flatten).dropLast := by
  unfold completeLines
  rw [runReads_eq reads [] (List.not_mem_nil '\n')]
  simp

theorem streamEvents_eq (reads : List (List Char)) :
    streamEvents reads =
      ((splitNl reads.flatten).dropLast.filterMap frameFor).map SSEvent.delta
        ++ [SSEvent.done] := by
  unfold streamEvents
  rw [completeLines_eq]

/-- The backend fragment `{"candidates":[{"text":"Hi"}]}\n` delivered
split mid-line across two network reads. -/
def fragSplitA : List Char := "\x7b\"candidates\":[\x7b\"te".toList

def fragSplitB : List Char := "xt\":\"Hi\"\x7d]\x7d\n".toList

/-- C1: the streaming translator appends each read to a carry-over buffer,
splits on newline, keeps the final (possibly incomplete) piece as the new
buffer, and processes exactly the complete leading fragments; the emitted
frames depend only on the concatenated byte stream (so no fragment is
dropped or duplicated across any partition into reads), and a fragment
split mid-line across two reads yields exactly one delta frame. -/
theorem streaming_midline_buffering :
    (∀ reads : List (List Char),
        streamEvents reads =
          ((splitNl reads.flatten).dropLast.filterMap frameFor).map SSEvent.delta
            ++ [SSEvent.done]) ∧
    (∀ reads reads' : List (List Char), reads.flatten = reads'.flatten →
        streamEvents reads = streamEvents reads') ∧
    streamEvents [fragSplitA, fragSplitB] = [SSEvent.delta "Hi", SSEvent.done] := by
  refine ⟨streamEvents_eq, ?_, ?_⟩
  · intro reads reads' h
    rw [streamEvents_eq, streamEvents_eq, h]
  · decide

/-- Witness for C1: the two-read mid-line split emits the same frames as
the unpartitioned stream. -/
theorem streaming_midline_buffering_witness :
    streamEvents [fragSplitA, fragSplitB] = streamEvents [fragSplitA ++ fragSplitB] :=
  streaming_midline_buffering.2.1 _ _ (by decide)

/-- A backend stream `{"candidates":[{"text":"Hel"}]}\n{"candidates":
[{"text":"lo"}]}\n` in one read. -/
def helLoRead : List Char :=
  ("\x7b\"candidates\":[\x7b\"text\":\"Hel\"\x7d]\x7d\n" ++
   "\x7b\"candidates\":[\x7b\"text\":\"lo\"\x7d]\x7d\n").toList

def helLine : List Char := "\x7b\"candidates\":[\x7b\"text\":\"Hel\"\x7d]\x7d".toList

def jsonHel : Json :=
  Json.obj [("candidates", Json.arr [Json.obj [("text", Json.str "Hel")]])]

/-- A backend fragment whose extracted candidate text is the empty
string: `{"candidates":[{"text":""}]}\n`. -/
def fragEmptyText : List Char := "\x7b\"candidates\":[\x7b\"text\":\"\"\x7d]\x7d\n".toList

def fragEmptyLine : List Char := "\x7b\"candidates\":[\x7b\"text\":\"\"\x7d]\x7d".toList

def jsonEmptyText : Json :=
  Json.obj [("candidates", Json.arr [Json.obj [("text", Json.str "")]])]

/-- C2 counterexample: the translator emits a delta frame even for a
fragment whose extracted candidate text is empty — the loop writes
`res.write` for every successfully parsed non-blank line
(`if (textDelta) chunkCount++` only increments a log counter).  The claim
predicts `[done]` alone for this stream; the code emits an
empty-content delta frame first. -/
theorem streaming_empty_delta_counterexample :
    parseJson fragEmptyLine = some jsonEmptyText ∧
    jsOr (candText jsonEmptyText) "" = "" ∧
    streamEvents [fragEmptyText] = [SSEvent.delta "", SSEvent.done] ∧
    streamEvents [fragEmptyText] ≠ [SSEvent.done] := by
  refine ⟨rfl, rfl, by decide, by decide⟩

/-- C2 amended: frames are emitted in exactly the order fragments are
parsed, one frame per non-blank fragment that parses as JSON — including
fragments whose extracted text is empty, which yield an empty-content
delta frame — followed by exactly one terminal `[DONE]` sentinel. -/
theorem streaming_fragment_ordering :
    (∀ reads : List (List Char),
        streamEvents reads =
          ((completeLines reads).filterMap frameFor).map SSEvent.delta
            ++ [SSEvent.done]) ∧
    (∀ line : List Char, jsTrim line ≠ [] → ∀ j, parseJson line = some j →
        frameFor line = some (jsOr (candText j) "")) ∧
    streamEvents [helLoRead] =
      [SSEvent.delta "Hel", SSEvent.delta "lo", SSEvent.done] := by
  refine ⟨fun _ => rfl, ?_, ?_⟩
  · intro line hbl j hp
    unfold frameFor
    rw [if_neg hbl, hp]
  · decide

/-- Witness for C2 (amended): a concrete parsed fragment produces exactly
one frame carrying its extracted text. -/
theorem streaming_fragment_ordering_witness :
    frameFor helLine = some "Hel" :=
  streaming_fragment_ordering.2.1 helLine (by decide) jsonHel rfl

/-- A stream whose middle line is not JSON. -/
def garbageStream : List Char :=
  ("\x7b\"candidates\":[\x7b\"text\":\"ok1\"\x7d]\x7d\n" ++
   "not json\n" ++
   "\x7b\"candidates\":[\x7b\"text\":\"ok2\"\x7d]\x7d\n").toList

/-- C4: a line that fails to parse as JSON is skipped — it produces no
frame, does not abort the stream, and later fragments are still
processed. -/
theorem malformed_fragment_skipped :
    (∀ bad : List Char, parseJson bad = none → frameFor bad = none) ∧
    (∀ (pre post : List (List Char)) (bad : List Char), parseJson bad = none →
        (pre ++ bad :: post).filterMap frameFor =
          pre.filterMap frameFor ++ post.filterMap frameFor) ∧
    streamEvents [garbageStream] =
      [SSEvent.delta "ok1", SSEvent.delta "ok2", SSEvent.done] := by
  have h1 : ∀ bad : List Char, parseJson bad = none → frameFor bad = none := by
    intro bad hp
    unfold frameFor
    by_cases hbl : jsTrim bad = []
    · rw [if_pos hbl]
    · rw [if_neg hbl, hp]
  refine ⟨h1, ?_, ?_⟩
  · intro pre post bad hp
    have : pre ++ bad :: post = pre ++ [bad] ++ post := by simp
    rw [this, List.filterMap_append, List.filterMap_append,
      List.filterMap_cons, h1 bad hp]
    simp
  · decide

/-- Witness for C4: a concrete malformed line yields no frame, and a
stream interleaving it between two valid fragments drops only it. -/
theorem malformed_fragment_skipped_witness :
    frameFor ("not json".toList) = none :=
  malformed_fragment_skipped.1 ("not json".toList) rfl

/-- A stream whose bytes do not end in a newline: the text after the last
newline would parse to `"lost"` but is discarded at stream end. -/
def unterminatedStream : List Char :=
  ("\x7b\"candidates\":[\x7b\"text\":\"A\"\x7d]\x7d\n" ++
   "\x7b\"candidates\":[\x7b\"text\":\"lost\"\x7d]\x7d").toList

/-- C10: the final non-empty carry-over buffer at stream end never
produces a delta frame — frames come only from the complete
(newline-terminated) leading pieces — while the `[DONE]` sentinel is
still emitted as the last event. -/
theorem streaming_trailing_buffer_discarded :
    (∀ reads : List (List Char),
        streamEvents reads =
          ((splitNl reads.flatten).dropLast.filterMap frameFor).map SSEvent.delta
            ++ [SSEvent.done]) ∧
    (∀ reads : List (List Char), (streamEvents reads).getLast? = some SSEvent.done) ∧
    streamEvents [unterminatedStream] = [SSEvent.delta "A", SSEvent.done] := by
  refine ⟨streamEvents_eq, ?_, ?_⟩
  · intro reads
    unfold streamEvents
    rw [List.getLast?_concat]
  · decide

/-! ## Handler embedding (`src/unnamed/part_000`)

The hardened variant; `src/unnamed/part_001` and
`src/api/v1/chat/completions.js` are near-duplicates of the same handler —
differences are noted on the claims they affect.  `console.log` calls are
not observable behaviour and are not modelled. -/

/-- A `messages` element; `content` is `none` for an absent or non-string
value. -/
structure Msg where
  content : Option String
deriving DecidableEq

/-- The parsed request body.  `model`/`messages` are `none` when absent
(or, for `messages`, not an array); the `stream = false` destructuring
default is already applied. -/
structure ReqBody where
  model : Option String
  messages : Option (List Msg)
  stream : Bool
deriving DecidableEq

structure Request where
  method : String
  body : Option ReqBody
  authorization : Option String
deriving DecidableEq

/-- JS truthiness of an optional string value: `undefined`/`null` and the
empty string are falsy. -/
def isFalsy : Option String → Bool
  | none => true
  | some s => s = ""

/-- The send payload assembled at `src/unnamed/part_000` lines 146-159.
The two constant-null override fields and the
constant-empty `seen_msg_uuids` are literals in the source and carry no
information; they are omitted here. -/
structure SendPayload where
  history_external_id : Option String
  character_external_id : String
  text : String
  tgt : Option String
  ranking_method : String
  staging : Bool
  stream_every_n_steps : Nat
  is_proactive : Bool
  num_candidates : Nat
deriving DecidableEq

inductive BackendCall where
  | fetchCsrf
  | fetchInfo (charId : String)
  | fetchCreate (charId : String)
  | fetchSend (payload : SendPayload)
deriving DecidableEq

/-- Trace of externally visible side effects: store reads, store writes
(key, value, expiry seconds) and backend calls, each in program order. -/
structure Effects where
  reads : List String
  writes : List (String × Option String × Nat)
  calls : List BackendCall
deriving DecidableEq

def Effects.empty : Effects := ⟨[], [], []⟩

def Effects.app (e f : Effects) : Effects :=
  ⟨e.reads ++ f.reads, e.writes ++ f.writes, e.calls ++ f.calls⟩

/-- Oracle fixing what each possible backend fetch would return.
`infoBody`/`createBody`: outer `none` models a response body that is not
JSON (`res.json()` throws); the inner option is the `identifier` /
`external_id` field of the parsed body, `none` when absent. -/
structure Backend where
  csrfOk : Bool
  csrfStatus : Nat
  csrfSetCookie : Option String
  infoOk : Bool
  infoStatus : Nat
  infoErrText : String
  infoBody : Option (Option String)
  createOk : Bool
  createStatus : Nat
  createErrText : String
  createBody : Option (Option String)
  sendOk : Bool
  sendErrText : String
  sendBody : Option Json
  sendReads : List (List Char)

/-- The Redis snapshot for this request (no key is read after being
written within one request, so a static snapshot is faithful). -/
def Store := String → Option String

structure ChoiceMsg where
  role : String
  content : String
deriving DecidableEq

structure Choice where
  index : Nat
  message : ChoiceMsg
  finish_reason : String
deriving DecidableEq

structure Usage where
  prompt_tokens : Nat
  completion_tokens : Nat
  total_tokens : Nat
deriving DecidableEq

/-- The 200 non-streaming envelope (`id`/`created` are clock values and
omitted). -/
structure CompletionBody where
  object : String
  model : String
  choices : List Choice
  usage : Usage
deriving DecidableEq

inductive Response where
  | err (status : Nat) (msg : String)
  | ok (body : CompletionBody)
  | stream (events : List SSEvent)
deriving DecidableEq

def CSRF_KEY (token : String) : String := "cai:csrf:" ++ token

def HISTORY_KEY (token charId : String) : String :=
  "cai:history:" ++ token ++ ":" ++ charId

def TGT_KEY (token charId : String) : String :=
  "cai:tgt:" ++ token ++ ":" ++ charId

/-- JS `String.prototype.split` with a one-character separator (the
source only splits on `';'`, `'='` and `'\n'`). -/
def splitCh (sep : Char) : List Char → List (List Char)
  | [] => [[]]
  | c :: rest =>
    if c = sep then [] :: splitCh sep rest
    else
      match splitCh sep rest with
      | [] => [[c]]
      | l :: ls => (c :: l) :: ls

/-- JS `s.startsWith(p)`. -/
def startsWithChars : List Char → List Char → Bool
  | [], _ => true
  | _ :: _, [] => false
  | p :: ps, c :: cs => p = c && startsWithChars ps cs

def jsStartsWith (s p : String) : Bool := startsWithChars p.data s.data

/-- JS `s.slice(n)`. -/
def jsDrop (s : String) (n : Nat) : String := String.mk (s.data.drop n)

/-- Cookie lookup `parseCookie` (`src/unnamed/part_000` lines 15-20): name-matched
lookup in a semicolon-delimited cookie list; `cookie[1]` is undefined when
the matched cookie has no `=`. -/
def parseCookie (cookiesStr : Option String) (name : String) : Option String :=
  match cookiesStr with
  | none => none
  | some s =>
    if s = "" then none
    else
      let cookies := (splitCh ';' s.data).map (fun c => splitCh '=' (jsTrim c))
      match cookies.find? (fun parts => parts.head? = some name.data) with
      | some parts => (parts[1]?).map String.mk
      | none => none

/-- Error-body truncation, `if (errText.length > 200) errText = errText.slice(0, 200) + ...`
(`src/unnamed/part_000` lines 106, 130, 173); `slice(0, 200)` is the first
200 characters. -/
def trunc200 (s : String) : String :=
  if s.length > 200 then String.mk (s.data.take 200) ++ "..." else s

/-- Models the message of the `SyntaxError` thrown by `res.json()` on a
non-JSON body; the exact runtime text is irrelevant to every claim. -/
def jsonParseErrMsg : String := "Unexpected token in JSON"

/-- Models the `TypeError` thrown by `messages[messages.length - 1].content`
on an empty `messages` array. -/
def undefinedContentErrMsg : String :=
  "Cannot read properties of undefined (reading content)"

/-- CSRF resolver `getCsrfToken` (`src/unnamed/part_000` lines 23-44): Redis-cached CSRF
token, primed from the root endpoint's set-cookie header on a miss
(a falsy cached value is a miss, as in JS `if (!csrfToken)`). -/
def getCsrfToken (be : Backend) (σ : Store) (token : String) :
    Except String String × Effects :=
  let key := CSRF_KEY token
  let miss : Except String String × Effects :=
    if be.csrfOk then
      match parseCookie be.csrfSetCookie "csrftoken" with
      | some v =>
        if v = "" then (Except.error "No csrftoken in cookies", ⟨[key], [], [.fetchCsrf]⟩)
        else (Except.ok v, ⟨[key], [(key, some v, 3600)], [.fetchCsrf]⟩)
      | none => (Except.error "No csrftoken in cookies", ⟨[key], [], [.fetchCsrf]⟩)
    else
      (Except.error ("Failed to get CSRF: " ++ toString be.csrfStatus),
       ⟨[key], [], [.fetchCsrf]⟩)
  match σ key with
  | some v => if v = "" then miss else (Except.ok v, ⟨[key], [], []⟩)
  | none => miss

/-- Шаг 3 (dispatch + translate), `src/unnamed/part_000` lines 146-238:
assemble the payload, issue the send call, then stream or wrap the
reply. -/
def sendStage (be : Backend) (charId : String) (stream : Bool)
    (userMessage : String) (tgt hist : Option String) (eff3 : Effects) :
    Response × Effects :=
  let payload : SendPayload :=
    { history_external_id := hist
      character_external_id := charId
      text := userMessage
      tgt := tgt
      ranking_method := "random"
      staging := false
      stream_every_n_steps := if stream then 1 else 16
      is_proactive := false
      num_candidates := 1 }
  let eff4 := eff3.app ⟨[], [], [.fetchSend payload]⟩
  if ¬be.sendOk then
    (Response.err 500 ("API error: " ++ trunc200 be.sendErrText), eff4)
  else if stream then
    (Response.stream (streamEvents be.sendReads), eff4)
  else
    match be.sendBody with
    | none => (Response.err 500 jsonParseErrMsg, eff4)
    | some data =>
      (Response.ok
        { object := "chat.completion"
          model := charId
          choices :=
            [{ index := 0
               message :=
                 { role := "assistant"
                   content := jsOr (candText data) "No response" }
               finish_reason := "stop" }]
          usage :=
            { prompt_tokens := 0
              completion_tokens := 0
              total_tokens := 0 } }, eff4)

/-- Last-message extraction, `const userMessage = messages[messages.length - 1].content`, and its
validation (`src/unnamed/part_000` lines 140-144): an empty array throws
a TypeError (→ 500); an absent/non-string/empty content is a 400. -/
def msgStage (be : Backend) (charId : String) (stream : Bool)
    (messages : List Msg) (tgt hist : Option String) (eff3 : Effects) :
    Response × Effects :=
  match messages.getLast? with
  | none => (Response.err 500 undefinedContentErrMsg, eff3)
  | some lastMsg =>
    match lastMsg.content with
    | none => (Response.err 400 "Invalid user message", eff3)
    | some userMessage =>
      if userMessage = "" then
        (Response.err 400 "Invalid user message", eff3)
      else sendStage be charId stream userMessage tgt hist eff3

/-- Шаг 2 (continuity manager), `src/unnamed/part_000` lines 120-138:
reuse the cached handle, or create one and cache it for 604800 s. -/
def histStage (be : Backend) (σ : Store) (charId : String)
    (messages : List Msg) (stream : Bool) (token : String)
    (tgt : Option String) (eff2 : Effects) : Response × Effects :=
  let kvKey := HISTORY_KEY token charId
  if isFalsy (σ kvKey) then
    if be.createOk then
      match be.createBody with
      | some hid =>
        msgStage be charId stream messages tgt hid
          (eff2.app ⟨[], [(kvKey, hid, 604800)], [.fetchCreate charId]⟩)
      | none =>
        (Response.err 500 jsonParseErrMsg,
         eff2.app ⟨[], [], [.fetchCreate charId]⟩)
    else
      (Response.err 500 ("Failed to create history: "
          ++ toString be.createStatus ++ " - " ++ trunc200 be.createErrText),
       eff2.app ⟨[], [], [.fetchCreate charId]⟩)
  else msgStage be charId stream messages tgt (some ((σ kvKey).getD "")) eff2

/-- Шаг 1 (identity resolver), `src/unnamed/part_000` lines 98-118: reuse
the cached tgt, or fetch `identifier` from char info and cache it for
3600 s (the value is cached even when the field is absent). -/
def tgtStage (be : Backend) (σ : Store) (charId : String)
    (messages : List Msg) (stream : Bool) (token : String)
    (eff1 : Effects) : Response × Effects :=
  let tgtKey := TGT_KEY token charId
  if isFalsy (σ tgtKey) then
    if be.infoOk then
      match be.infoBody with
      | some ident =>
        histStage be σ charId messages stream token ident
          (eff1.app ⟨[], [(tgtKey, ident, 3600)], [.fetchInfo charId]⟩)
      | none =>
        (Response.err 500 jsonParseErrMsg,
         eff1.app ⟨[], [], [.fetchInfo charId]⟩)
    else
      (Response.err 500 ("Failed to get char info: "
          ++ toString be.infoStatus ++ " - " ++ trunc200 be.infoErrText),
       eff1.app ⟨[], [], [.fetchInfo charId]⟩)
  else
    histStage be σ charId messages stream token (some ((σ tgtKey).getD ""))
      eff1

/-- The `try` block of the handler (`src/unnamed/part_000` lines 90-238),
after validation has bound `charId`, `messages`, `stream` and `token`:
CSRF, then the two `redis.get` reads (`kvKey` first, then `tgtKey`), then
the staged pipeline. -/
def tryBlock (be : Backend) (σ : Store) (charId : String) (messages : List Msg)
    (stream : Bool) (token : String) : Response × Effects :=
  match getCsrfToken be σ token with
  | (Except.error e, eff) => (Response.err 500 e, eff)
  | (Except.ok _csrf, eff0) =>
    tgtStage be σ charId messages stream token
      (eff0.app ⟨[HISTORY_KEY token charId, TGT_KEY token charId], [], []⟩)

/-- The request handler (`src/unnamed/part_000` lines 54-243). -/
def handler (be : Backend) (σ : Store) (req : Request) : Response × Effects :=
  if req.method ≠ "POST" then (Response.err 405 "Method not allowed", Effects.empty)
  else
    match req.body with
    | none => (Response.err 400 "Invalid JSON body", Effects.empty)
    | some body =>
      if isFalsy body.model || body.messages.isNone then
        (Response.err 400 "Missing model or messages", Effects.empty)
      else
        let charId := body.model.getD ""
        if charId.length < 20 then
          (Response.err 400 "Invalid model (must be character external ID)",
           Effects.empty)
        else
          match req.authorization with
          | none => (Response.err 401 "Invalid token", Effects.empty)
          | some auth =>
            if ¬jsStartsWith auth "Bearer " then
              (Response.err 401 "Invalid token", Effects.empty)
            else
              tryBlock be σ charId (body.messages.getD []) body.stream
                (jsDrop auth 7)

/-! ## Concrete scenarios used by witnesses and counterexamples -/

def charIdA : String := "char-external-id-0123456789"

def tokenA : String := "tok1"

def sendJsonHi : Json :=
  Json.obj [("candidates", Json.arr [Json.obj [("text", Json.str "Hi there")]])]

/-- Store with all three keys cached for (tokenA, charIdA). -/
def σFull : Store := fun k =>
  if k = CSRF_KEY tokenA then some "csrfv"
  else if k = HISTORY_KEY tokenA charIdA then some "hist1"
  else if k = TGT_KEY tokenA charIdA then some "tgt1"
  else none

/-- Store with the routing identifier (tgt) missing. -/
def σNoTgt : Store := fun k =>
  if k = CSRF_KEY tokenA then some "csrfv"
  else if k = HISTORY_KEY tokenA charIdA then some "hist1"
  else none

def σEmpty : Store := fun _ => none

/-- Store with the conversation handle missing. -/
def σNoHist : Store := fun k =>
  if k = CSRF_KEY tokenA then some "csrfv"
  else if k = TGT_KEY tokenA charIdA then some "tgt1"
  else none

def beBase : Backend :=
  { csrfOk := true, csrfStatus := 200, csrfSetCookie := some "csrftoken=abc; Path=/",
    infoOk := true, infoStatus := 200, infoErrText := "", infoBody := some (some "ident1"),
    createOk := true, createStatus := 200, createErrText := "", createBody := some (some "hist9"),
    sendOk := true, sendErrText := "", sendBody := some sendJsonHi, sendReads := [] }

/-- Backend that answers the char-info call with a success status but a
body lacking the `identifier` field. -/
def beNoIdent : Backend := { beBase with infoBody := some none }

def reqBase : Request :=
  { method := "POST",
    body := some { model := some charIdA,
                   messages := some [{ content := some "Hello" }],
                   stream := false },
    authorization := some ("Bearer " ++ tokenA) }

/-! ## C5: short ConversationPartnerId is rejected before any effect -/

/-- C5: every POST request whose `model` field is a string shorter than 20
characters receives a 400 response — whichever earlier validation fires,
the status is 400 — and produces no store read, store write or backend
call.  (The length check is at `src/unnamed/part_000` lines 75-78 and
`src/unnamed/part_001` lines 44-47; the `completions.js` variant lacks
it.) -/
theorem short_model_rejected (be : Backend) (σ : Store) (req : Request)
    (body : ReqBody) (m : String) (hm : req.method = "POST")
    (hb : req.body = some body) (hmod : body.model = some m)
    (hlen : m.length < 20) :
    ∃ msg, handler be σ req = (Response.err 400 msg, Effects.empty) := by
  unfold handler
  rw [hb, hm]
  by_cases hempty : m = ""
  · exact ⟨"Missing model or messages", by simp [isFalsy, hmod, hempty]⟩
  · by_cases hmsgs : body.messages.isNone
    · exact ⟨"Missing model or messages", by simp [isFalsy, hmod, hempty, hmsgs]⟩
    · refine ⟨"Invalid model (must be character external ID)", ?_⟩
      simp [isFalsy, hmod, hempty, hmsgs, hlen]

/-- Witness for C5: a concrete 5-character model id yields 400 with no
effects. -/
theorem short_model_rejected_witness :
    ∃ msg,
      handler beBase σEmpty
        { method := "POST",
          body := some { model := some "short",
                         messages := some [{ content := some "Hello" }],
                         stream := false },
          authorization := some ("Bearer " ++ tokenA) } =
        (Response.err 400 msg, Effects.empty) :=
  short_model_rejected _ _ _ _ "short" rfl rfl rfl (by decide)

/-! ## C9: only the last message influences the handler -/

theorem tryBlock_congr (be : Backend) (σ : Store) (charId : String)
    (st : Bool) (token : String) (m1 m2 : List Msg)
    (hlast : m1.getLast? = m2.getLast?) :
    tryBlock be σ charId m1 st token = tryBlock be σ charId m2 st token := by
  have h : ∀ tgt hist eff,
      msgStage be charId st m1 tgt hist eff =
        msgStage be charId st m2 tgt hist eff := by
    intro tgt hist eff
    unfold msgStage
    rw [hlast]
  unfold tryBlock tgtStage histStage
  simp only [h]

/-- C9: two requests agreeing on credential, ConversationPartnerId, stream
flag and the last element of `messages`, but differing in earlier
elements, produce identical handler outputs — the same backend send
payload (recorded in the call trace), the same store effects and the same
response.  Only `messages[messages.length - 1].content` is consulted. -/
theorem last_message_only (be : Backend) (σ : Store) (method : String)
    (model : Option String) (auth : Option String) (st : Bool)
    (m1 m2 : List Msg) (hlast : m1.getLast? = m2.getLast?) :
    handler be σ { method := method, body := some { model := model, messages := some m1, stream := st }, authorization := auth } =
      handler be σ { method := method, body := some { model := model, messages := some m2, stream := st }, authorization := auth } := by
  have h : ∀ c t, tryBlock be σ c m1 st t = tryBlock be σ c m2 st t :=
    fun c t => tryBlock_congr be σ c st t m1 m2 hlast
  unfold handler
  simp only [Option.getD_some]
  rw [show (some m1).isNone = (some m2).isNone from rfl]
  split
  · rfl
  · split
    · rfl
    · split
      · rfl
      · split
        · rfl
        · split
          · rfl
          · exact h _ _

/-- Witness for C9: prepending an extra earlier turn leaves the output
unchanged. -/
theorem last_message_only_witness :
    handler beBase σFull
      { method := "POST",
        body := some { model := some charIdA,
                       messages := some [{ content := some "earlier turn" },
                                         { content := some "Hello" }],
                       stream := false },
        authorization := some ("Bearer " ++ tokenA) } =
      handler beBase σFull
        { method := "POST",
          body := some { model := some charIdA,
                         messages := some [{ content := some "Hello" }],
                         stream := false },
          authorization := some ("Bearer " ++ tokenA) } :=
  last_message_only beBase σFull "POST" (some charIdA)
    (some ("Bearer " ++ tokenA)) false _ _ (by decide)

/-! ## C3 and C7: session-continuity and identity-resolver behaviour -/

theorem getCsrfToken_hit (be : Backend) (σ : Store) (token v : String)
    (hv : σ (CSRF_KEY token) = some v) (hne : v ≠ "") :
    getCsrfToken be σ token = (Except.ok v, ⟨[CSRF_KEY token], [], []⟩) := by
  simp only [getCsrfToken]
  rw [hv]
  simp [hne]

/-- C3 counterexample: a request whose ConversationHandle comes from cache
completes a successful send, yet the handler performs no store write at
all — the 7-day expiry is never refreshed after the send; `redis.set`
on the history key exists only inside the `if (!historyExternalId)`
creation branch (`src/unnamed/part_000` line 137). -/
theorem handle_expiry_not_refreshed_counterexample :
    (handler beBase σFull reqBase).1 =
      Response.ok
        { object := "chat.completion", model := charIdA,
          choices := [{ index := 0,
                        message := { role := "assistant", content := "Hi there" },
                        finish_reason := "stop" }],
          usage := { prompt_tokens := 0, completion_tokens := 0,
                     total_tokens := 0 } } ∧
    (handler beBase σFull reqBase).2.writes = [] := by
  exact ⟨by decide, by decide⟩

/-- C3 amended: a newly created ConversationHandle is written to the store
with a 604800-second (7-day) expiry, and that creation-time write is the
only store write touching the handle key: a request whose handle comes
from cache performs no store write at all, so the expiry is never
refreshed after a successful send. -/
theorem handle_expiry_set_only_at_creation (be : Backend) (σ : Store)
    (charId : String) (msgs : List Msg) (st : Bool) (token : String) (cv : String)
    (hcv : σ (CSRF_KEY token) = some cv) (hcvne : cv ≠ "")
    (htgt : isFalsy (σ (TGT_KEY token charId)) = false) :
    (isFalsy (σ (HISTORY_KEY token charId)) = true →
      be.createOk = true → ∀ hid, be.createBody = some hid →
      (tryBlock be σ charId msgs st token).2.writes =
        [(HISTORY_KEY token charId, hid, 604800)]) ∧
    (isFalsy (σ (HISTORY_KEY token charId)) = false →
      (tryBlock be σ charId msgs st token).2.writes = []) := by
  constructor
  · intro hmiss hok hid hbody
    simp only [tryBlock, getCsrfToken_hit be σ token cv hcv hcvne, tgtStage,
      htgt, Bool.false_eq_true, if_false, histStage, hmiss, hok, hbody,
      if_true, msgStage, sendStage]
    repeat' split
    all_goals simp [Effects.app, Effects.empty]
  · intro hhit
    simp only [tryBlock, getCsrfToken_hit be σ token cv hcv hcvne, tgtStage,
      htgt, Bool.false_eq_true, if_false, histStage, hhit, msgStage, sendStage]
    repeat' split
    all_goals simp [Effects.app, Effects.empty]

/-- Witness for C3 (amended): with the concrete base scenario, the
creation run writes exactly the handle key with 604800s expiry, and the
cache-hit run writes nothing. -/
theorem handle_expiry_set_only_at_creation_witness :
    (tryBlock beBase σNoHist charIdA [{ content := some "Hello" }] false
        tokenA).2.writes =
      [(HISTORY_KEY tokenA charIdA, some "hist9", 604800)] ∧
    (tryBlock beBase σFull charIdA [{ content := some "Hello" }] false
        tokenA).2.writes = [] :=
  ⟨(handle_expiry_set_only_at_creation beBase σNoHist charIdA _ false tokenA
      "csrfv" (by decide) (by decide) (by decide)).1 (by decide) rfl _ rfl,
   (handle_expiry_set_only_at_creation beBase σFull charIdA _ false tokenA
      "csrfv" (by decide) (by decide) (by decide)).2 (by decide)⟩

/-- C7 counterexample: the backend answers the character-info call with a
success status and a JSON body lacking `identifier`; the resolver does not
abort with any error — the handler caches the missing value
(`redis.set(tgtKey, undefined)`) and proceeds to a successful 200
response. -/
theorem missing_identifier_not_rejected_counterexample :
    (handler beNoIdent σNoTgt reqBase).1 =
      Response.ok
        { object := "chat.completion", model := charIdA,
          choices := [{ index := 0,
                        message := { role := "assistant", content := "Hi there" },
                        finish_reason := "stop" }],
          usage := { prompt_tokens := 0, completion_tokens := 0,
                     total_tokens := 0 } } ∧
    (handler beNoIdent σNoTgt reqBase).2.writes =
      [(TGT_KEY tokenA charIdA, none, 3600)] := by
  exact ⟨by decide, by decide⟩

/-- C7 amended: on a success status with the `identifier` field absent the
resolver does not fail — it caches the absent value under the tgt key with
3600s expiry and proceeds; on a non-success status the thrown error
carries the backend body truncated by `trunc200`, whose output never
exceeds 203 characters (200 of body plus the `...` marker). -/
theorem info_resolver_missing_field_and_truncation (be : Backend) (σ : Store)
    (charId : String) (msgs : List Msg) (st : Bool) (token : String)
    (cv : String) (hcv : σ (CSRF_KEY token) = some cv) (hcvne : cv ≠ "")
    (htgtmiss : isFalsy (σ (TGT_KEY token charId)) = true) :
    (be.infoOk = true → be.infoBody = some none →
      (TGT_KEY token charId, (none : Option String), 3600) ∈
        (tryBlock be σ charId msgs st token).2.writes) ∧
    (be.infoOk = false →
      (tryBlock be σ charId msgs st token).1 =
        Response.err 500 ("Failed to get char info: " ++ toString be.infoStatus
          ++ " - " ++ trunc200 be.infoErrText)) ∧
    (∀ s : String, (trunc200 s).length ≤ 203) := by
  refine ⟨?_, ?_, ?_⟩
  · intro hok hbody
    simp only [tryBlock, getCsrfToken_hit be σ token cv hcv hcvne, tgtStage,
      htgtmiss, hok, hbody, if_true, histStage, msgStage, sendStage]
    repeat' split
    all_goals simp [Effects.app, Effects.empty]
  · intro hfail
    simp only [tryBlock, getCsrfToken_hit be σ token cv hcv hcvne, tgtStage,
      htgtmiss, hfail, Bool.false_eq_true, if_false, if_true]
  · intro s
    unfold trunc200
    split
    · rw [String.length_append]
      have h1 : (String.mk (s.data.take 200)).length = (s.data.take 200).length := rfl
      have h2 : (s.data.take 200).length ≤ 200 := List.length_take_le 200 s.data
      have h3 : ("..." : String).length = 3 := rfl
      omega
    · omega

/-- Witness for C7 (amended): the concrete missing-identifier scenario
caches the absent value. -/
theorem info_resolver_missing_field_witness :
    (TGT_KEY tokenA charIdA, (none : Option String), 3600) ∈
      (tryBlock beNoIdent σNoTgt charIdA [{ content := some "Hello" }] false
        tokenA).2.writes :=
  (info_resolver_missing_field_and_truncation beNoIdent σNoTgt charIdA _ false
    tokenA "csrfv" (by decide) (by decide) (by decide)).1 rfl rfl

/-! ## C6: which failures precede effects -/

/-- The possible late outcomes: a 500, the late `Invalid user message`
400, or a success (200 JSON or SSE stream). -/
def lateOutcome (r : Response) : Prop :=
  (∃ e, r = Response.err 500 e) ∨
  r = Response.err 400 "Invalid user message" ∨
  (∃ b, r = Response.ok b) ∨
  (∃ ev, r = Response.stream ev)

theorem sendStage_outcomes (be : Backend) (charId : String) (st : Bool)
    (u : String) (tgt hist : Option String) (eff : Effects) :
    lateOutcome (sendStage be charId st u tgt hist eff).1 := by
  unfold lateOutcome
  simp only [sendStage]
  repeat' split
  all_goals
    first
    | exact Or.inl ⟨_, rfl⟩
    | exact Or.inr (Or.inl rfl)
    | exact Or.inr (Or.inr (Or.inl ⟨_, rfl⟩))
    | exact Or.inr (Or.inr (Or.inr ⟨_, rfl⟩))

theorem msgStage_outcomes (be : Backend) (charId : String) (st : Bool)
    (msgs : List Msg) (tgt hist : Option String) (eff : Effects) :
    lateOutcome (msgStage be charId st msgs tgt hist eff).1 := by
  simp only [msgStage]
  repeat' split
  all_goals
    first
    | exact Or.inl ⟨_, rfl⟩
    | exact Or.inr (Or.inl rfl)
    | exact sendStage_outcomes _ _ _ _ _ _ _

theorem histStage_outcomes (be : Backend) (σ : Store) (charId : String)
    (msgs : List Msg) (st : Bool) (token : String) (tgt : Option String)
    (eff : Effects) :
    lateOutcome (histStage be σ charId msgs st token tgt eff).1 := by
  simp only [histStage]
  repeat' split
  all_goals
    first
    | exact Or.inl ⟨_, rfl⟩
    | exact msgStage_outcomes _ _ _ _ _ _ _

theorem tgtStage_outcomes (be : Backend) (σ : Store) (charId : String)
    (msgs : List Msg) (st : Bool) (token : String) (eff : Effects) :
    lateOutcome (tgtStage be σ charId msgs st token eff).1 := by
  simp only [tgtStage]
  repeat' split
  all_goals
    first
    | exact Or.inl ⟨_, rfl⟩
    | exact histStage_outcomes _ _ _ _ _ _ _ _

/-- Every outcome of the `try` block is a 500, the late
`Invalid user message` 400, or a success — no 401 and no other 400
originates inside it. -/
theorem tryBlock_outcomes (be : Backend) (σ : Store) (charId : String)
    (msgs : List Msg) (st : Bool) (token : String) :
    lateOutcome (tryBlock be σ charId msgs st token).1 := by
  unfold tryBlock
  repeat' split
  all_goals
    first
    | exact Or.inl ⟨_, rfl⟩
    | exact tgtStage_outcomes _ _ _ _ _ _ _

/-- Either the handler performed no effect at all, or its response is a
500, the late `Invalid user message` 400, or a success. -/
theorem handler_effects_empty_or_late (be : Backend) (σ : Store)
    (req : Request) :
    (handler be σ req).2 = Effects.empty ∨ lateOutcome (handler be σ req).1 := by
  simp only [handler]
  repeat' split
  all_goals
    first
    | exact Or.inl rfl
    | exact Or.inr (tryBlock_outcomes _ _ _ _ _ _)

/-- Request with a valid model, valid bearer and a last message whose
`content` is absent. -/
def reqBadMsg : Request :=
  { method := "POST",
    body := some { model := some charIdA,
                   messages := some [{ content := none }],
                   stream := false },
    authorization := some ("Bearer " ++ tokenA) }

/-- C6 counterexample: an `InvalidRequest` failure (the 400 from the
`Invalid user message` check, `src/unnamed/part_000` lines 141-144) is
detected only after the handler has read all three cache keys, written
three store entries and made three backend calls — store state does change
on this failure. -/
theorem invalid_request_after_effects_counterexample :
    (handler beBase σEmpty reqBadMsg).1 =
      Response.err 400 "Invalid user message" ∧
    (handler beBase σEmpty reqBadMsg).2 =
      ⟨[CSRF_KEY tokenA, HISTORY_KEY tokenA charIdA, TGT_KEY tokenA charIdA],
       [(CSRF_KEY tokenA, some "abc", 3600),
        (TGT_KEY tokenA charIdA, some "ident1", 3600),
        (HISTORY_KEY tokenA charIdA, some "hist9", 604800)],
       [BackendCall.fetchCsrf, BackendCall.fetchInfo charIdA,
        BackendCall.fetchCreate charIdA]⟩ ∧
    (handler beBase σEmpty reqBadMsg).2 ≠ Effects.empty := by
  exact ⟨by decide, by decide, by decide⟩

/-- C6 amended: every `Unauthorized` (401) failure and every
`InvalidRequest` (400) failure except the `Invalid user message` check is
detected and returned before any store read, store write or backend call;
the `Invalid user message` 400 alone fires after cache resolution and may
follow store writes and backend calls. -/
theorem early_failures_have_no_effects (be : Backend) (σ : Store)
    (req : Request) (status : Nat) (msg : String)
    (h : (handler be σ req).1 = Response.err status msg)
    (hs : status = 401 ∨ (status = 400 ∧ msg ≠ "Invalid user message")) :
    (handler be σ req).2 = Effects.empty := by
  have hout := handler_effects_empty_or_late be σ req
  unfold lateOutcome at hout
  rcases hout with he | ⟨e, he⟩ | he | ⟨b, he⟩ | ⟨ev, he⟩
  · exact he
  · injection (he.symm.trans h) with h1 h2
    rcases hs with h401 | ⟨h400, _⟩
    · exact absurd (h1.trans h401) (by decide)
    · exact absurd (h1.trans h400) (by decide)
  · injection (he.symm.trans h) with h1 h2
    rcases hs with h401 | ⟨h400, hne⟩
    · exact absurd (h1.trans h401) (by decide)
    · exact absurd h2.symm hne
  · exact Response.noConfusion (he.symm.trans h)
  · exact Response.noConfusion (he.symm.trans h)

def reqNoAuth : Request :=
  { method := "POST",
    body := some { model := some charIdA,
                   messages := some [{ content := some "Hello" }],
                   stream := false },
    authorization := none }

/-- Witness for C6 (amended): a concrete 401 run leaves the store and
backend untouched. -/
theorem early_failures_have_no_effects_witness :
    (handler beBase σEmpty reqNoAuth).2 = Effects.empty :=
  early_failures_have_no_effects beBase σEmpty reqNoAuth 401 "Invalid token"
    (by decide) (Or.inl rfl)

/-! ## C8: the non-streaming response envelope -/

def jsonEmptyCand : Json :=
  Json.obj [("candidates", Json.arr [Json.obj [("text", Json.str "")]])]

/-- Backend whose send reply has `candidates[0].text` present but equal to
the empty string. -/
def beEmptyText : Backend := { beBase with sendBody := some jsonEmptyCand }

/-- C8 counterexample: the backend's first-candidate `text` field is
present (the empty string), yet the response carries the placeholder
`"No response"` — JS `||` treats the present-but-empty field as absent, so
the claim's "placeholder only when that field is absent" fails. -/
theorem placeholder_for_present_empty_text_counterexample :
    candText jsonEmptyCand = some (Json.str "") ∧
    (handler beEmptyText σFull reqBase).1 =
      Response.ok
        { object := "chat.completion", model := charIdA,
          choices := [{ index := 0,
                        message := { role := "assistant",
                                     content := "No response" },
                        finish_reason := "stop" }],
          usage := { prompt_tokens := 0, completion_tokens := 0,
                     total_tokens := 0 } } := by
  exact ⟨rfl, by decide⟩

/-- C8 amended: every successful non-streaming request returns a 200 whose
envelope has exactly one choice with index 0, role `assistant`,
finish_reason `stop`, all usage counters 0, and message content equal to
the backend's first-candidate text when that is a non-empty string and the
fixed placeholder `"No response"` when the field is absent, not a string,
or the empty string. -/
theorem nonstream_response_shape (be : Backend) (σ : Store) (charId : String)
    (msgs : List Msg) (token cv u : String) (data : Json)
    (hcv : σ (CSRF_KEY token) = some cv) (hcvne : cv ≠ "")
    (htgt : isFalsy (σ (TGT_KEY token charId)) = false)
    (hhist : isFalsy (σ (HISTORY_KEY token charId)) = false)
    (hlast : msgs.getLast? = some { content := some u }) (hu : u ≠ "")
    (hsend : be.sendOk = true) (hbody : be.sendBody = some data) :
    (tryBlock be σ charId msgs false token).1 =
      Response.ok
        { object := "chat.completion", model := charId,
          choices := [{ index := 0,
                        message := { role := "assistant",
                                     content := jsOr (candText data) "No response" },
                        finish_reason := "stop" }],
          usage := { prompt_tokens := 0, completion_tokens := 0,
                     total_tokens := 0 } } ∧
    (∀ s, candText data = some (Json.str s) → s ≠ "" →
      jsOr (candText data) "No response" = s) ∧
    (candText data = none → jsOr (candText data) "No response" = "No response") ∧
    (candText data = some (Json.str "") →
      jsOr (candText data) "No response" = "No response") := by
  refine ⟨?_, ?_, ?_, ?_⟩
  · simp only [tryBlock, getCsrfToken_hit be σ token cv hcv hcvne, tgtStage,
      htgt, Bool.false_eq_true, if_false, histStage, hhist, msgStage, hlast,
      sendStage, hsend]
    simp [hu, hbody]
  · intro s hc hs
    rw [hc]
    simp [jsOr, hs]
  · intro hc
    rw [hc]
    simp [jsOr]
  · intro hc
    rw [hc]
    simp [jsOr]

/-- Witness for C8 (amended): the base scenario produces the full
envelope, whose content is the backend's non-empty candidate text. -/
theorem nonstream_response_shape_witness :
    (tryBlock beBase σFull charIdA [{ content := some "Hello" }] false
        tokenA).1 =
      Response.ok
        { object := "chat.completion", model := charIdA,
          choices := [{ index := 0,
                        message := { role := "assistant",
                                     content := jsOr (candText sendJsonHi)
                                       "No response" },
                        finish_reason := "stop" }],
          usage := { prompt_tokens := 0, completion_tokens := 0,
                     total_tokens := 0 } } :=
  (nonstream_response_shape beBase σFull charIdA [{ content := some "Hello" }]
    tokenA "csrfv" "Hello" sendJsonHi (by decide) (by decide) (by decide)
    (by decide) rfl (by decide) rfl rfl).1

end CaiProxy
